import Mathlib

/-!
Shallow embedding of the extension modules of tarantool/iceberg-rust:
`crates/catalog/sql/src/extensions.rs` (the commit-and-publish path of the
SQL catalog) and `crates/integrations/datafusion/src/extensions.rs`
(shared snapshot id cell, snapshot id moderator, table resolution).

Modelling choices:
* Rust `i64` snapshot ids become `Int`; the code only loads, swaps and
  compares them, so no wraparound arithmetic arises.
* `async` methods become pure functions over explicit collaborator
  oracles; a method that performs external effects returns its result
  together with the ordered trace of the effects it performed.
* The shared atomic cell (`Arc<AtomicI64>`) is modelled as an explicit
  piece of state threaded through the operations that may read or write
  it; a `SnapshotIdModerator` keeps only its private `previous` field,
  the shared cell being passed to each of its operations.
-/

namespace Iceberg

/-- A table identifier: namespace segments plus a table name
(`iceberg::TableIdent`); `nsSegments` is the ordered list of namespace
name segments. -/
structure TableIdent where
  nsSegments : List String
  name : String
  deriving DecidableEq

/-- Table metadata as far as the embedded code inspects it: the set of
snapshot ids it contains (`snapshot_by_id` keys) and the current snapshot
id (`current_snapshot_id()`), both from `iceberg::TableMetadata`. -/
structure TableMetadata where
  snapshots : List Int
  current_snapshot_id : Option Int
  deriving DecidableEq

/-- Looks up a snapshot by id in the metadata
(`TableMetadata::snapshot_by_id`); the embedding keeps only the id of the
found snapshot, which is all the embedded code uses (`is_some()`). -/
def TableMetadata.snapshot_by_id (m : TableMetadata) (snapshot_id : Int) : Option Int :=
  if snapshot_id ∈ m.snapshots then some snapshot_id else none

/-- A table handle (`iceberg::table::Table`): its identifier, metadata and
optional metadata location. The `file_io` field is not modelled; the
durable-write collaborator that consumes it is an oracle (`CommitEnv`). -/
structure Table where
  identifier : TableIdent
  metadata : TableMetadata
  metadata_location : Option String
  deriving DecidableEq

/-- Modelled from the spec: the error taxonomy of section 7 (NotFound,
Validation, StorageIO, CatalogIO, Conflict) stands in for `iceberg::Error`
because the collaborators that produce the errors (catalog load, commit
application, durable metadata write, statement execution) are not under
src/. -/
inductive CommitError where
  | NotFound
  | Validation
  | StorageIO
  | CatalogIO
  | Conflict
  deriving DecidableEq

/-- Rendering of an error as a message string (`e.to_string()` on the Rust
side). -/
def CommitError.toMessage : CommitError → String
  | CommitError.NotFound => "NotFound"
  | CommitError.Validation => "Validation"
  | CommitError.StorageIO => "StorageIO"
  | CommitError.CatalogIO => "CatalogIO"
  | CommitError.Conflict => "Conflict"

/-- Returns the table's metadata location or an error when it is absent
(`Table::metadata_location_result`); the precise error kind of the absent
case is irrelevant to every claim below. -/
def Table.metadata_location_result (t : Table) : Except CommitError String :=
  match t.metadata_location with
  | some loc => Except.ok loc
  | none => Except.error CommitError.Validation

/-- Modelled from the spec: the catalog row columns of the section-6 row
schema. Each constructor stands for one of the string constants of
`crates/catalog/sql/src/constants.rs`, a file that is not under src/. -/
inductive CatalogField where
  | catalog_name
  | table_name
  | table_namespace
  | metadata_location
  | record_type
  deriving DecidableEq

/-- Modelled from the spec: the table-kind marker literal interpolated
into the guard (`CATALOG_FIELD_TABLE_RECORD_TYPE` of the constants file
that is not under src/); its concrete value is irrelevant to the claims. -/
def CATALOG_FIELD_TABLE_RECORD_TYPE : String := "TABLE"

/-- Modelled from the spec: the catalog table name (`CATALOG_TABLE_NAME`
of the constants file that is not under src/). -/
def CATALOG_TABLE_NAME : String := "iceberg_tables"

/-- Syntax of a WHERE condition of the conditional update statement, as
far as `apply_table_update` builds one: equality of a column with a bound
parameter, equality with a string literal, IS NULL, conjunction and
disjunction. -/
inductive WhereCond where
  | eqParam : CatalogField → WhereCond
  | eqLit : CatalogField → String → WhereCond
  | isNull : CatalogField → WhereCond
  | and : WhereCond → WhereCond → WhereCond
  | or : WhereCond → WhereCond → WhereCond
  deriving DecidableEq

/-- The shape of an UPDATE statement issued through `execute`: target
table, the columns assigned from bound parameters (in order), and the
WHERE condition. -/
structure UpdateStatement where
  target : String
  setFields : List CatalogField
  whereCond : WhereCond
  deriving DecidableEq

/-- An externally visible effect performed by `apply_table_update`:
a durable metadata write to a location, or the execution of a catalog
statement with its bound parameters. -/
inductive Effect where
  | MetadataWrite : String → Effect
  | CatalogExecute : UpdateStatement → List (Option String) → Effect
  deriving DecidableEq

/-- Modelled from the spec: the collaborator interfaces of section 6 that
`apply_table_update` consumes and whose code is not under src/ —
`load_table` (catalog load, fails NotFound if absent), `write_to` (durable
metadata write keyed by metadata and location), and `execute` (catalog
statement execution returning the number of rows affected). -/
structure CommitEnv where
  load_table : TableIdent → Except CommitError Table
  write_to : TableMetadata → String → Except CommitError Unit
  execute : UpdateStatement → List (Option String) → Except CommitError Nat

/-- The SQL catalog as the embedded method sees it: its `name` field and
its collaborators. -/
structure SqlCatalog where
  name : String
  env : CommitEnv

/-- A proposed table commit (`iceberg::TableCommit`): the identifier it is
bound to, and the application of its changes to a loaded table
(`commit.apply(current_table)`), which may fail validation. -/
structure TableCommit where
  identifier : TableIdent
  applyTo : Table → Except CommitError Table

/-- Embedding of `SqlCatalog::apply_table_update`
(crates/catalog/sql/src/extensions.rs): load the current table, apply the
commit to obtain the staged table, take its metadata location, write the
metadata there, then execute the conditional catalog update with the four
bound parameters. The row count returned by `execute` is bound and
discarded exactly as the Rust `.await?;` does. The second component is
the trace of external effects performed, in order. -/
def SqlCatalog.apply_table_update (cat : SqlCatalog) (commit : TableCommit) :
    Except CommitError Table × List Effect :=
  match cat.env.load_table commit.identifier with
  | Except.error e => (Except.error e, [])
  | Except.ok current_table =>
    match commit.applyTo current_table with
    | Except.error e => (Except.error e, [])
    | Except.ok staged_table =>
      match staged_table.metadata_location_result with
      | Except.error e => (Except.error e, [])
      | Except.ok metadata_location =>
        match cat.env.write_to staged_table.metadata metadata_location with
        | Except.error e => (Except.error e, [Effect.MetadataWrite metadata_location])
        | Except.ok _ =>
          let identifier := staged_table.identifier
          let stmt : UpdateStatement :=
            ⟨CATALOG_TABLE_NAME, [CatalogField.metadata_location],
              WhereCond.and (WhereCond.eqParam CatalogField.catalog_name)
                (WhereCond.and (WhereCond.eqParam CatalogField.table_name)
                  (WhereCond.and (WhereCond.eqParam CatalogField.table_namespace)
                    (WhereCond.or
                      (WhereCond.eqLit CatalogField.record_type CATALOG_FIELD_TABLE_RECORD_TYPE)
                      (WhereCond.isNull CatalogField.record_type))))⟩
          let params : List (Option String) :=
            [some metadata_location, some cat.name, some identifier.name,
              some (String.intercalate "." identifier.nsSegments)]
          (match cat.env.execute stmt params with
            | Except.error e => Except.error e
            | Except.ok _ => Except.ok staged_table,
            [Effect.MetadataWrite metadata_location, Effect.CatalogExecute stmt params])

/-- State of a `SharedSnapshotId` cell: the `i64` stored in the atomic
(`Arc<AtomicI64>`). -/
structure SharedSnapshotId where
  val : Int
  deriving DecidableEq

/-- The unset sentinel `i64::MIN` (`SharedSnapshotId::UNSET_ID`); snapshot
id generation never produces negative ids, so it is distinct from every
real id. -/
def SharedSnapshotId.UNSET_ID : Int := -(2 ^ 63)

/-- Embedding of `SharedSnapshotId::new`: stores the initial value, or the
unset sentinel when none is given. -/
def SharedSnapshotId.new (initial : Option Int) : SharedSnapshotId :=
  ⟨initial.getD SharedSnapshotId.UNSET_ID⟩

/-- Embedding of `SharedSnapshotId::get_value`: returns the contained
value when it differs from the given previous value (absent previous is
treated as the unset sentinel), otherwise none. -/
def SharedSnapshotId.get_value (s : SharedSnapshotId) (previous_id_value : Option Int) :
    Option Int :=
  let received := s.val
  let previous := previous_id_value.getD SharedSnapshotId.UNSET_ID
  if previous ≠ received then some received else none

/-- Embedding of `SharedSnapshotId::set_value`: the atomic swap — returns
whether the old value differed from the new one, together with the updated
cell. -/
def SharedSnapshotId.set_value (s : SharedSnapshotId) (new_id_value : Int) :
    Bool × SharedSnapshotId :=
  let old_value := s.val
  (old_value != new_id_value, ⟨new_id_value⟩)

/-- A `SnapshotIdModerator`'s own state: its private `previous` baseline.
The `shared` field of the Rust struct is a reference to the cell, which
the embedding passes explicitly to each operation that may touch it. -/
structure SnapshotIdModerator where
  previous : Int
  deriving DecidableEq

/-- Embedding of `SnapshotIdModerator::new`: captures the shared cell's
current value as the initial baseline. -/
def SnapshotIdModerator.new (shared : SharedSnapshotId) : SnapshotIdModerator :=
  ⟨shared.val⟩

/-- Embedding of `SnapshotIdModerator::get_new_value`: reads the shared
cell relative to this moderator's private baseline. -/
def SnapshotIdModerator.get_new_value (m : SnapshotIdModerator) (shared : SharedSnapshotId) :
    Option Int :=
  shared.get_value (some m.previous)

/-- Embedding of `SnapshotIdModerator::set_new_value`: delegates to the
shared cell's `set_value`; the moderator's own state is untouched. -/
def SnapshotIdModerator.set_new_value (_m : SnapshotIdModerator) (shared : SharedSnapshotId)
    (new_id_value : Int) : Bool × SharedSnapshotId :=
  shared.set_value new_id_value

/-- Embedding of `SnapshotIdModerator::acknowledge`: replaces this
moderator's private baseline; the shared cell is returned unchanged
because the Rust body writes only `self.previous`. -/
def SnapshotIdModerator.acknowledge (_m : SnapshotIdModerator) (shared : SharedSnapshotId)
    (value_to_acknowledge : Int) : SnapshotIdModerator × SharedSnapshotId :=
  (⟨value_to_acknowledge⟩, shared)

/-- The resolver's own error domain (`datafusion::error::DataFusionError`
as far as `table_to_use` produces it: the `Internal` variant holding the
rendered collaborator error). -/
inductive DataFusionError where
  | Internal : String → DataFusionError
  deriving DecidableEq

/-- Modelled from the spec: the catalog collaborator bound to a table
provider (`Arc<dyn iceberg::Catalog>`, whose implementation is not under
src/) — only its `load_table` entry point is consumed here. -/
structure CatalogOracle where
  load_table : TableIdent → Except CommitError Table

/-- The table provider (`crate::IcebergTableProvider`) as the embedded
methods see it: the cached table, the optional explicit snapshot id, the
Arrow schema (irrelevant to resolution, modelled as `Unit`), the optional
bound catalog and the optional shared snapshot cell. -/
structure IcebergTableProvider where
  table : Table
  snapshot_id : Option Int
  schema : Unit
  catalog : Option CatalogOracle
  shared_snapshot_id : Option SharedSnapshotId

/-- Embedding of `IcebergTableProvider::new_from_parts`: builds a provider
with the given catalog bound and no shared snapshot cell. -/
def IcebergTableProvider.new_from_parts (table : Table) (snapshot_id : Option Int)
    (schema : Unit) (catalog : CatalogOracle) : IcebergTableProvider :=
  ⟨table, snapshot_id, schema, some catalog, none⟩

/-- Embedding of `IcebergTableProvider::table_to_use`: with no bound
catalog, the cached table; otherwise, the cached table when the needed
snapshot id (explicit override, else shared cell value) is present in the
cached metadata, and a catalog reload (with the collaborator error wrapped
into `DataFusionError.Internal`) otherwise. The second component is the
list of identifiers passed to catalog `load_table` calls. -/
def IcebergTableProvider.table_to_use (p : IcebergTableProvider) :
    Except DataFusionError Table × List TableIdent :=
  match p.catalog with
  | none => (Except.ok p.table, [])
  | some catalog =>
    let has_needed_snapshot :=
      ((p.snapshot_id.orElse (fun _ =>
          p.shared_snapshot_id.bind (fun ssid => ssid.get_value none))).bind
        (fun snapshot_id => p.table.metadata.snapshot_by_id snapshot_id)).isSome
    if has_needed_snapshot then
      (Except.ok p.table, [])
    else
      match catalog.load_table p.table.identifier with
      | Except.ok t => (Except.ok t, [p.table.identifier])
      | Except.error e =>
        (Except.error (DataFusionError.Internal e.toMessage), [p.table.identifier])

/-- Embedding of `IcebergTableProvider::set_snapshot_id_moderator`:
creates a fresh shared cell seeded with the provider's snapshot id, a
moderator over it, stores the cell in the provider and returns the
moderator. -/
def IcebergTableProvider.set_snapshot_id_moderator (p : IcebergTableProvider) :
    SnapshotIdModerator × IcebergTableProvider :=
  let shared := SharedSnapshotId.new p.snapshot_id
  let moderator := SnapshotIdModerator.new shared
  (moderator, ⟨p.table, p.snapshot_id, p.schema, p.catalog, some shared⟩)

/-- Embedding of `IcebergCommitExec::update_shared_snapshot_id`: when both
the optional shared cell and the committed table's current snapshot id are
present, writes that id into the cell; otherwise a no-op. Returns the
(possibly updated) optional cell. -/
def update_shared_snapshot_id (shared : Option SharedSnapshotId) (new_table : Table) :
    Option SharedSnapshotId :=
  match shared, new_table.metadata.current_snapshot_id with
  | some moderator, some value => some (moderator.set_value value).2
  | _, _ => shared

/-- Specification-side description of the needed snapshot id computed by
`table_to_use`: the explicit per-call override when supplied, otherwise
the shared cell's latest set value (none while the cell still holds the
unset sentinel or is absent). Written from the spec's words, to be
compared with the source-side computation. -/
def specNeededSnapshotId (p : IcebergTableProvider) : Option Int :=
  match p.snapshot_id with
  | some sid => some sid
  | none =>
    match p.shared_snapshot_id with
    | some cell =>
      if cell.val = SharedSnapshotId.UNSET_ID then none else some cell.val
    | none => none

/-- Concrete identifier used by the closed-instance theorems below. -/
def demoIdent : TableIdent := ⟨["db"], "events"⟩

/-- Concrete currently-persisted table: no snapshots, location v1. -/
def demoCurrentTable : Table := ⟨demoIdent, ⟨[], none⟩, some "v1.json"⟩

/-- Concrete staged table: snapshot 42, location v2. -/
def demoStagedTable : Table := ⟨demoIdent, ⟨[42], some 42⟩, some "v2.json"⟩

/-- Concrete commit staging `demoStagedTable` over the current table. -/
def demoCommit : TableCommit := ⟨demoIdent, fun _ => Except.ok demoStagedTable⟩

/-- Collaborators for which the guarded update matches no row: `execute`
succeeds but reports zero rows affected. -/
def zeroRowsEnv : CommitEnv :=
  ⟨fun _ => Except.ok demoCurrentTable, fun _ _ => Except.ok (), fun _ _ => Except.ok 0⟩

/-- Catalog over the zero-rows collaborators. -/
def zeroRowsCatalog : SqlCatalog := ⟨"demo", zeroRowsEnv⟩

/-- Collaborators whose durable metadata write fails with a storage
error. -/
def storageFailEnv : CommitEnv :=
  ⟨fun _ => Except.ok demoCurrentTable, fun _ _ => Except.error CommitError.StorageIO,
    fun _ _ => Except.ok 1⟩

/-- Catalog over the failing-write collaborators. -/
def storageFailCatalog : SqlCatalog := ⟨"demo", storageFailEnv⟩

/-- Collaborators for which every step succeeds and the update affects one
row. -/
def okEnv : CommitEnv :=
  ⟨fun _ => Except.ok demoCurrentTable, fun _ _ => Except.ok (), fun _ _ => Except.ok 1⟩

/-- Catalog over the all-succeeding collaborators. -/
def okCatalog : SqlCatalog := ⟨"demo", okEnv⟩

/-- Concrete catalog oracle returning the staged table on load. -/
def demoOracle : CatalogOracle := ⟨fun _ => Except.ok demoStagedTable⟩

/-- Concrete provider with a bound catalog whose cached table lacks the
needed snapshot. -/
def demoProviderBound : IcebergTableProvider :=
  ⟨demoCurrentTable, some 42, (), some demoOracle, none⟩

/-- Concrete detached provider: no catalog, yet an explicit snapshot id
and a set shared cell. -/
def demoProviderDetached : IcebergTableProvider :=
  ⟨demoCurrentTable, some 42, (), none, some ⟨99⟩⟩

/-- Relates a cell read against an explicit previous value to a plain
conditional, for reuse in the moderator proofs. -/
lemma SharedSnapshotId.get_value_some (s : SharedSnapshotId) (p : Int) :
    s.get_value (some p) = if p = s.val then none else some s.val := by
  by_cases h : p = s.val <;> simp [SharedSnapshotId.get_value, h]

/-- C4: for every cell state and values v, w: `set_value v` on a cell
holding v returns false and leaves the cell unchanged; `set_value w` with
w distinct from the held v returns true; after `set_value w`,
`get_value (some v)` with v distinct from w returns some w; and
`get_value previous` returns none whenever the held value equals the
previous (absent previous read as the unset sentinel). -/
theorem c4_shared_cell_ops (s : SharedSnapshotId) (v w : Int) :
    (s.val = v → s.set_value v = (false, s))
    ∧ (s.val = v → w ≠ v → (s.set_value w).1 = true)
    ∧ (v ≠ w → ((s.set_value w).2).get_value (some v) = some w)
    ∧ (∀ previous : Option Int, s.val = previous.getD SharedSnapshotId.UNSET_ID →
        s.get_value previous = none) := by
  refine ⟨?_, ?_, ?_, ?_⟩
  · intro h
    subst h
    cases s
    simp [SharedSnapshotId.set_value]
  · intro h hw
    subst h
    simpa [SharedSnapshotId.set_value, bne_iff_ne] using Ne.symm hw
  · intro hvw
    simp [SharedSnapshotId.set_value, SharedSnapshotId.get_value, hvw]
  · intro previous h
    simp [SharedSnapshotId.get_value, h]

/-- C4 witness: the cell operations evaluated on the cell holding 5 with
values 5 and 7. -/
theorem c4_witness :
    (SharedSnapshotId.mk 5).set_value 5 = (false, ⟨5⟩)
    ∧ ((SharedSnapshotId.mk 5).set_value 7).1 = true
    ∧ (((SharedSnapshotId.mk 5).set_value 7).2).get_value (some 5) = some 7
    ∧ (SharedSnapshotId.mk 5).get_value (some 5) = none := by
  obtain ⟨a, b, c, d⟩ := c4_shared_cell_ops (SharedSnapshotId.mk 5) 5 7
  exact ⟨a rfl, b rfl (by decide), c (by decide), d (some 5) rfl⟩

/-- C5: acknowledging in one moderator leaves the shared cell unchanged,
hence the other moderator's baseline and `get_new_value` result are
unaffected. -/
theorem c5_acknowledge_frame (cell : SharedSnapshotId) (m1 m2 : SnapshotIdModerator)
    (x : Int) :
    (m1.acknowledge cell x).2 = cell
    ∧ m2.get_new_value ((m1.acknowledge cell x).2) = m2.get_new_value cell :=
  ⟨rfl, rfl⟩

/-- C6: a fresh moderator's baseline is the cell's value at creation;
`get_new_value` returns some of the cell's current value iff it differs
from the private baseline (and none iff it equals it); after
`acknowledge k` the baseline is k, and `get_new_value` is none exactly
while the cell's value equals k. -/
theorem c6_moderator_spec (cell c cAck : SharedSnapshotId) (m : SnapshotIdModerator)
    (k : Int) :
    (SnapshotIdModerator.new cell).previous = cell.val
    ∧ (m.get_new_value c = some c.val ↔ c.val ≠ m.previous)
    ∧ (m.get_new_value c = none ↔ c.val = m.previous)
    ∧ ((m.acknowledge cAck k).1).previous = k
    ∧ (((m.acknowledge cAck k).1).get_new_value c = none ↔ c.val = k) := by
  refine ⟨rfl, ?_, ?_, rfl, ?_⟩
  · rw [SnapshotIdModerator.get_new_value, SharedSnapshotId.get_value_some]
    by_cases h : m.previous = c.val
    · simp [h]
    · simp [h]
      exact fun hh => h hh.symm
  · rw [SnapshotIdModerator.get_new_value, SharedSnapshotId.get_value_some]
    by_cases h : m.previous = c.val
    · simp [h]
    · simp [h]
      exact fun hh => h hh.symm
  · rw [SnapshotIdModerator.get_new_value, SharedSnapshotId.get_value_some]
    by_cases h : k = c.val
    · simp [SnapshotIdModerator.acknowledge, h]
    · simp [SnapshotIdModerator.acknowledge, h]
      exact fun hh => h hh.symm

/-- C7: with no bound catalog, `table_to_use` returns the cached table and
performs no catalog call, whatever the snapshot id state. -/
theorem c7_table_to_use_detached (p : IcebergTableProvider) (hc : p.catalog = none) :
    p.table_to_use = (Except.ok p.table, []) := by
  unfold IcebergTableProvider.table_to_use
  rw [hc]

/-- C7 witness: the detached provider, despite an explicit snapshot id and
a set shared cell, yields its cached table with an empty call trace. -/
theorem c7_witness : demoProviderDetached.table_to_use = (Except.ok demoCurrentTable, []) :=
  c7_table_to_use_detached demoProviderDetached rfl

/-- C9: a never-set cell answers `get_value (some x)` for non-sentinel x
with some of the sentinel i64 minimum itself, and a moderator that has
acknowledged a non-sentinel value observes that sentinel as a new
value over the unset cell. -/
theorem c9_unset_sentinel (x : Int) (hx : x ≠ SharedSnapshotId.UNSET_ID)
    (m : SnapshotIdModerator) (c : SharedSnapshotId) :
    SharedSnapshotId.UNSET_ID = -(2 ^ 63)
    ∧ (SharedSnapshotId.new none).get_value (some x) = some SharedSnapshotId.UNSET_ID
    ∧ ((m.acknowledge c x).1).get_new_value (SharedSnapshotId.new none) =
        some SharedSnapshotId.UNSET_ID := by
  refine ⟨rfl, ?_, ?_⟩
  · simp [SharedSnapshotId.new, SharedSnapshotId.get_value, hx]
  · simp [SnapshotIdModerator.acknowledge, SnapshotIdModerator.get_new_value,
      SharedSnapshotId.new, SharedSnapshotId.get_value, hx]

/-- C9 witness: the sentinel leak evaluated at x = 42 over the unset
cell. -/
theorem c9_witness :
    SharedSnapshotId.UNSET_ID = -(2 ^ 63)
    ∧ (SharedSnapshotId.new none).get_value (some 42) = some SharedSnapshotId.UNSET_ID
    ∧ (((SnapshotIdModerator.mk 0).acknowledge ⟨0⟩ 42).1).get_new_value
        (SharedSnapshotId.new none) = some SharedSnapshotId.UNSET_ID :=
  c9_unset_sentinel 42 (by decide) ⟨0⟩ ⟨0⟩

/-- C10: the post-commit publication writes the committed table's current
snapshot id into the shared cell only when the cell is present and the id
exists; with the cell absent or no current snapshot id, nothing is
modified. -/
theorem c10_update_shared (shared : Option SharedSnapshotId) (t : Table)
    (cell : SharedSnapshotId) (v : Int) :
    (shared = some cell → t.metadata.current_snapshot_id = some v →
      update_shared_snapshot_id shared t = some ⟨v⟩)
    ∧ (shared = none → update_shared_snapshot_id shared t = none)
    ∧ (t.metadata.current_snapshot_id = none → update_shared_snapshot_id shared t = shared) := by
  refine ⟨?_, ?_, ?_⟩
  · intro h1 h2
    subst h1
    simp [update_shared_snapshot_id, h2, SharedSnapshotId.set_value]
  · intro h1
    subst h1
    rfl
  · intro h2
    cases shared with
    | none => rfl
    | some cellPresent => simp [update_shared_snapshot_id, h2]

/-- C10 witness: publication evaluated with a present cell and snapshot
42, with an absent cell, and with a table missing a current snapshot. -/
theorem c10_witness :
    update_shared_snapshot_id (some ⟨1⟩) demoStagedTable = some ⟨42⟩
    ∧ update_shared_snapshot_id none demoStagedTable = none
    ∧ update_shared_snapshot_id (some ⟨1⟩) demoCurrentTable = some ⟨1⟩ :=
  ⟨(c10_update_shared (some ⟨1⟩) demoStagedTable ⟨1⟩ 42).1 rfl rfl,
    (c10_update_shared none demoStagedTable ⟨1⟩ 42).2.1 rfl,
    (c10_update_shared (some ⟨1⟩) demoCurrentTable ⟨1⟩ 0).2.2 rfl⟩

/-- C1: against the collaborators whose conditional update affects zero
rows, `apply_table_update` nonetheless reports success with the staged
table — the row count returned by `execute` is discarded, so no Conflict
is ever surfaced. -/
theorem c1_apply_zero_rows_succeeds :
    (∀ st ps, zeroRowsCatalog.env.execute st ps = Except.ok 0)
    ∧ (zeroRowsCatalog.apply_table_update demoCommit).1 = Except.ok demoStagedTable :=
  ⟨fun _ _ => rfl, rfl⟩

/-- C2: along the path that reaches the durable metadata write, a storage
failure makes `apply_table_update` return that error with no catalog
statement in its effect trace, and any catalog statement appearing in the
trace is preceded by a successful metadata write to the staged
location. -/
theorem c2_write_before_publish (cat : SqlCatalog) (commit : TableCommit)
    (current staged : Table) (loc : String)
    (h1 : cat.env.load_table commit.identifier = Except.ok current)
    (h2 : commit.applyTo current = Except.ok staged)
    (h3 : staged.metadata_location_result = Except.ok loc) :
    (cat.env.write_to staged.metadata loc = Except.error CommitError.StorageIO →
      cat.apply_table_update commit =
        (Except.error CommitError.StorageIO, [Effect.MetadataWrite loc]))
    ∧ (∀ st ps, Effect.CatalogExecute st ps ∈ (cat.apply_table_update commit).2 →
        cat.env.write_to staged.metadata loc = Except.ok ()
        ∧ (cat.apply_table_update commit).2 =
            [Effect.MetadataWrite loc, Effect.CatalogExecute st ps]) := by
  constructor
  · intro hw
    unfold SqlCatalog.apply_table_update
    simp only [h1, h2, h3, hw]
  · intro st ps hmem
    unfold SqlCatalog.apply_table_update at hmem
    cases hw : cat.env.write_to staged.metadata loc with
    | error e =>
      simp only [h1, h2, h3, hw] at hmem
      simp at hmem
    | ok u =>
      cases u
      simp only [h1, h2, h3, hw] at hmem
      simp at hmem
      obtain ⟨hst, hps⟩ := hmem
      refine ⟨rfl, ?_⟩
      unfold SqlCatalog.apply_table_update
      simp only [h1, h2, h3, hw, hst, hps]

/-- C2 witness: against the failing-write collaborators, the commit
returns the storage error and the trace holds only the metadata write. -/
theorem c2_witness :
    storageFailCatalog.apply_table_update demoCommit =
      (Except.error CommitError.StorageIO, [Effect.MetadataWrite "v2.json"]) :=
  (c2_write_before_publish storageFailCatalog demoCommit demoCurrentTable demoStagedTable
    "v2.json" rfl rfl rfl).1 rfl

/-- C8: along the path where the metadata write succeeds, the executed
statement updates exactly the metadata location column of the catalog
table, guarded by bound-parameter equality on catalog name, table name and
joined namespace conjoined with the record-type disjunction, and the bound
parameters are the new location, the catalog's name, the identifier's name
and the namespace segments joined with the dot separator, in that
order. -/
theorem c8_update_statement_shape (cat : SqlCatalog) (commit : TableCommit)
    (current staged : Table) (loc : String)
    (h1 : cat.env.load_table commit.identifier = Except.ok current)
    (h2 : commit.applyTo current = Except.ok staged)
    (h3 : staged.metadata_location_result = Except.ok loc)
    (h4 : cat.env.write_to staged.metadata loc = Except.ok ()) :
    (cat.apply_table_update commit).2 =
      [Effect.MetadataWrite loc,
        Effect.CatalogExecute
          ⟨CATALOG_TABLE_NAME, [CatalogField.metadata_location],
            WhereCond.and (WhereCond.eqParam CatalogField.catalog_name)
              (WhereCond.and (WhereCond.eqParam CatalogField.table_name)
                (WhereCond.and (WhereCond.eqParam CatalogField.table_namespace)
                  (WhereCond.or
                    (WhereCond.eqLit CatalogField.record_type CATALOG_FIELD_TABLE_RECORD_TYPE)
                    (WhereCond.isNull CatalogField.record_type))))⟩
          [some loc, some cat.name, some staged.identifier.name,
            some (String.intercalate "." staged.identifier.nsSegments)]] := by
  unfold SqlCatalog.apply_table_update
  simp only [h1, h2, h3, h4]

/-- C8 witness: the statement and parameters produced for the demo commit
against the all-succeeding collaborators. -/
theorem c8_witness :
    (okCatalog.apply_table_update demoCommit).2 =
      [Effect.MetadataWrite "v2.json",
        Effect.CatalogExecute
          ⟨CATALOG_TABLE_NAME, [CatalogField.metadata_location],
            WhereCond.and (WhereCond.eqParam CatalogField.catalog_name)
              (WhereCond.and (WhereCond.eqParam CatalogField.table_name)
                (WhereCond.and (WhereCond.eqParam CatalogField.table_namespace)
                  (WhereCond.or
                    (WhereCond.eqLit CatalogField.record_type CATALOG_FIELD_TABLE_RECORD_TYPE)
                    (WhereCond.isNull CatalogField.record_type))))⟩
          [some "v2.json", some "demo", some "events",
            some (String.intercalate "." ["db"])]] :=
  c8_update_statement_shape okCatalog demoCommit demoCurrentTable demoStagedTable "v2.json"
    rfl rfl rfl rfl

/-- Relates the source-side needed-id computation (explicit override
or-else shared cell read) to its specification-side description. -/
lemma needed_eq_spec (p : IcebergTableProvider) :
    p.snapshot_id.orElse (fun _ =>
      p.shared_snapshot_id.bind (fun ssid => ssid.get_value none)) =
      specNeededSnapshotId p := by
  cases hs : p.snapshot_id with
  | some sid => simp [Option.orElse, specNeededSnapshotId, hs]
  | none =>
    cases hc : p.shared_snapshot_id with
    | none => simp [Option.orElse, specNeededSnapshotId, hs, hc]
    | some cell =>
      by_cases h : cell.val = SharedSnapshotId.UNSET_ID
      · simp [Option.orElse, specNeededSnapshotId, hs, hc, SharedSnapshotId.get_value, h]
      · have hsym : ¬SharedSnapshotId.UNSET_ID = cell.val := fun hh => h hh.symm
        simp [Option.orElse, specNeededSnapshotId, hs, hc, SharedSnapshotId.get_value, h, hsym]

/-- C3: with a bound catalog, when the needed snapshot id (explicit
override, else the shared cell's set value) exists and is among the cached
metadata's snapshots, `table_to_use` returns the cached table with no
catalog call; otherwise it performs exactly the catalog reload, wrapping a
collaborator error into the resolver's `Internal` error. -/
theorem c3_table_to_use_with_catalog (p : IcebergTableProvider) (c : CatalogOracle)
    (hc : p.catalog = some c) :
    (∀ sid, specNeededSnapshotId p = some sid → sid ∈ p.table.metadata.snapshots →
      p.table_to_use = (Except.ok p.table, []))
    ∧ ((∀ sid, specNeededSnapshotId p = some sid → sid ∉ p.table.metadata.snapshots) →
      p.table_to_use =
        match c.load_table p.table.identifier with
        | Except.ok t => (Except.ok t, [p.table.identifier])
        | Except.error e =>
          (Except.error (DataFusionError.Internal e.toMessage), [p.table.identifier])) := by
  constructor
  · intro sid hneed hmem
    unfold IcebergTableProvider.table_to_use
    rw [hc]
    have hb : ((p.snapshot_id.orElse (fun _ =>
        p.shared_snapshot_id.bind (fun ssid => ssid.get_value none))).bind
        (fun snapshot_id => p.table.metadata.snapshot_by_id snapshot_id)) = some sid := by
      rw [needed_eq_spec, hneed]
      simp [TableMetadata.snapshot_by_id, hmem]
    simp [hb]
  · intro hnone
    unfold IcebergTableProvider.table_to_use
    rw [hc]
    have hb : ((p.snapshot_id.orElse (fun _ =>
        p.shared_snapshot_id.bind (fun ssid => ssid.get_value none))).bind
        (fun snapshot_id => p.table.metadata.snapshot_by_id snapshot_id)) = none := by
      rw [needed_eq_spec]
      cases hn : specNeededSnapshotId p with
      | none => rfl
      | some sid => simp [TableMetadata.snapshot_by_id, hnone sid hn]
    simp [hb]

/-- C3 witness: the bound provider needs snapshot 42, which its cached
(empty-snapshot) table lacks, so resolution reloads from the catalog and
returns the oracle's table with exactly one catalog call. -/
theorem c3_witness :
    demoProviderBound.table_to_use = (Except.ok demoStagedTable, [demoIdent]) :=
  (c3_table_to_use_with_catalog demoProviderBound demoOracle rfl).2
    (fun _ _ => by simp [demoProviderBound, demoCurrentTable])

end Iceberg
